import Mathlib

/-!
Verification development for the FinAgent dashboard (src/app.py).

The file embeds, as executable Lean definitions, the parts of src/app.py
that carry the upload → poll → refresh pipeline, the chat fallback logic
and the dashboard aggregates, and proves the specification's properties
about them.

Modelling conventions:
- Time is a natural number of "time units" (the source sleeps in seconds).
- A fetched DataFrame is represented by its record count, since every use
  in the polling pipeline only takes `len(df)`; `remote t` is the count
  `load_data_from_bin`'s HTTP GET would observe at time `t` (a transport
  failure is the count 0, the length of the empty frame the except branch
  returns — the except branch is inside the cached function, so its result
  is cached like any other).
- The `@st.cache_data(ttl=60)` wrapper is an explicit cache value
  `Option (Nat × Nat)`: `some (ts, n)` is a snapshot of count `n` stored
  at time `ts`, valid while the current time is below `ts + 60`.
-/

/-- Embeds `load_data_from_bin` (src/app.py lines 22-42) together with its
`@st.cache_data(ttl=60)` decorator.  Given the remote store's count history
`remote`, the current time `t` and the cache state, returns the count the
caller observes and the cache state afterwards: a valid cache entry is
served as is, otherwise the remote store is read and the result stored. -/
def load_data_from_bin (remote : Nat → Nat) (t : Nat) (cache : Option (Nat × Nat)) :
    Nat × Option (Nat × Nat) :=
  match cache with
  | some (ts, n) => if t < ts + 60 then (n, some (ts, n)) else (remote t, some (t, remote t))
  | none => (remote t, some (t, remote t))

/-- The extraction service's reaction to the multipart POST of
`send_file_to_n8n` (src/app.py line 48): either an HTTP response with a
status code, or an exception raised by the transport. -/
inductive UploadOutcome
  | response (status : Nat)
  | transportError
deriving DecidableEq

/-- Embeds `send_file_to_n8n` (src/app.py lines 44-51): returns
`response.status_code == 200`, and `False` when the request raised. -/
def send_file_to_n8n : UploadOutcome → Bool
  | .response status => status == 200
  | .transportError => false

/-- The slice of `st.session_state` the upload/poll pipeline touches:
the upload job marker (`is_processing`, `row_count`), the one-shot upload
status banner, the current page, and the `st.cache_data` entry of
`load_data_from_bin`. -/
structure SessionState where
  is_processing : Bool
  upload_success : Option Bool
  row_count : Option Nat
  page : String
  cache : Option (Nat × Nat)
deriving DecidableEq

/-- Embeds `handle_file_upload` (src/app.py lines 87-101) in the case where
a file is present in the uploader widget (the callback fires on a change;
with no file it does nothing).  On `send_file_to_n8n` success it sets
`is_processing`, `upload_success`, records `row_count` from
`load_data_from_bin` — the cached fetch — and switches to the Dashboard
page; on failure it only records `upload_success = false`. -/
def handle_file_upload (outcome : UploadOutcome) (remote : Nat → Nat) (t : Nat)
    (s : SessionState) : SessionState :=
  if send_file_to_n8n outcome then
    let r := load_data_from_bin remote t s.cache
    { s with is_processing := true, upload_success := some true,
             row_count := some r.1, page := "Dashboard", cache := r.2 }
  else
    { s with upload_success := some false }

/-- Terminal state of the dashboard polling loop: `resolved k` when growth
was observed on (1-based) attempt `k` and `st.rerun()` fired, `timedOut`
when the loop exhausted its 10 attempts. -/
inductive PollOutcome
  | resolved (attempt : Nat)
  | timedOut
deriving DecidableEq

/-- What the polling loop (src/app.py lines 165-181) leaves behind:
its outcome, the `is_processing` flag afterwards, whether the
"taking longer than usual" warning (line 180) and the "Dashboard updated!"
success banner (line 175) were shown, how many fetch attempts ran, and how
many time units were spent in `time.sleep(5)` calls. -/
structure PollResult where
  outcome : PollOutcome
  is_processing : Bool
  warning : Bool
  success : Bool
  attempts : Nat
  elapsed : Nat
deriving DecidableEq

/-- One spin of the `for i in range(10)` polling loop (src/app.py
lines 170-181), over the sequence of counts the fetches observe:
`fetch i` is `len(load_data_from_bin())` on 0-based attempt `i`.  On growth
the loop sets `is_processing = False`, shows the success banner and reruns
(no further attempt, no sleep); otherwise it sleeps 5 units and continues;
when the fuel is out, the code after the loop shows the staleness warning
and clears `is_processing`. -/
def pollGo (baseline : Nat) (fetch : Nat → Nat) : Nat → Nat → Nat → PollResult
  | 0, a, e => ⟨.timedOut, false, true, false, a, e⟩
  | fuel + 1, a, e =>
    if baseline < fetch a then ⟨.resolved (a + 1), false, false, true, a + 1, e⟩
    else pollGo baseline fetch fuel (a + 1) (e + 5)

/-- The whole polling pass of src/app.py lines 165-181: up to 10 attempts
against the baseline `initial_row_count`, starting with no attempts run
and no time slept. -/
def runPoll (baseline : Nat) (fetch : Nat → Nat) : PollResult :=
  pollGo baseline fetch 10 0 0

/-- The polling loop as the source actually runs it: each attempt calls the
cached `load_data_from_bin` (there is no cache invalidation before the
fetch — `st.cache_data.clear()` runs only on line 174, after growth was
already observed), then sleeps 5 units, so attempt `i` reads at time
`t + 5 * i` through the evolving cache state. -/
def pollCachedGo (baseline : Nat) (remote : Nat → Nat) :
    Nat → Nat → Nat → Nat → Option (Nat × Nat) → PollResult
  | 0, _, a, e, _ => ⟨.timedOut, false, true, false, a, e⟩
  | fuel + 1, t, a, e, cache =>
    let r := load_data_from_bin remote t cache
    if baseline < r.1 then ⟨.resolved (a + 1), false, false, true, a + 1, e⟩
    else pollCachedGo baseline remote fuel (t + 5) (a + 1) (e + 5) r.2

/-- The cache-aware polling pass: 10 attempts starting at time `t0` with
cache state `c0`. -/
def runPollCached (baseline : Nat) (remote : Nat → Nat) (t0 : Nat)
    (c0 : Option (Nat × Nat)) : PollResult :=
  pollCachedGo baseline remote 10 t0 0 0 c0

/-- The observed fetch counts of the spec's worked example: baseline 5 and
fetch results `[5, 5, 5, 6, ...]`. -/
def exFetch : Nat → Nat := fun j => if j < 3 then 5 else 6

/-- A store whose count is 5 at time 0 and 6 from time 1 on: the document
was extracted right after the baseline was captured. -/
def bugRemote : Nat → Nat := fun t => if t = 0 then 5 else 6

-- Unfolding lemmas for the polling loop.

theorem pollGo_zero (b : Nat) (fetch : Nat → Nat) (a e : Nat) :
    pollGo b fetch 0 a e = ⟨.timedOut, false, true, false, a, e⟩ := rfl

theorem pollGo_succ (b : Nat) (fetch : Nat → Nat) (fuel a e : Nat) :
    pollGo b fetch (fuel + 1) a e =
      if b < fetch a then ⟨.resolved (a + 1), false, false, true, a + 1, e⟩
      else pollGo b fetch fuel (a + 1) (e + 5) := rfl

/-- If every fetch the loop can still make stays at or below the baseline,
the loop spends all its fuel and times out, having slept 5 units per
attempt. -/
theorem pollGo_times_out (b : Nat) (fetch : Nat → Nat) :
    ∀ fuel a e, (∀ j, a ≤ j → j < a + fuel → fetch j ≤ b) →
      pollGo b fetch fuel a e = ⟨.timedOut, false, true, false, a + fuel, e + 5 * fuel⟩ := by
  intro fuel
  induction fuel with
  | zero => intro a e _; simp [pollGo_zero]
  | succ fuel ih =>
    intro a e h
    have ha : fetch a ≤ b := h a (Nat.le_refl a) (by omega)
    rw [pollGo_succ, if_neg (Nat.not_lt.mpr ha),
      ih (a + 1) (e + 5) (fun j hj1 hj2 => h j (by omega) (by omega))]
    have h1 : a + 1 + fuel = a + (fuel + 1) := by omega
    have h2 : e + 5 + 5 * fuel = e + 5 * (fuel + 1) := by omega
    rw [h1, h2]

/-- If the `d`-th remaining attempt (0-based) is the first to observe
growth and there is fuel to reach it, the loop resolves exactly there. -/
theorem pollGo_resolves (b : Nat) (fetch : Nat → Nat) :
    ∀ d fuel a e, d < fuel → b < fetch (a + d) →
      (∀ j, a ≤ j → j < a + d → fetch j ≤ b) →
      pollGo b fetch fuel a e =
        ⟨.resolved (a + d + 1), false, false, true, a + d + 1, e + 5 * d⟩ := by
  intro d
  induction d with
  | zero =>
    intro fuel a e hfuel hg _
    match fuel, hfuel with
    | fuel + 1, _ =>
      rw [pollGo_succ, if_pos (by simpa using hg)]
      simp
  | succ d ih =>
    intro fuel a e hfuel hg hfirst
    match fuel, hfuel with
    | fuel + 1, hfuel =>
      have ha : fetch a ≤ b := hfirst a (Nat.le_refl a) (by omega)
      have hg' : b < fetch (a + 1 + d) := by
        have h0 : a + 1 + d = a + (d + 1) := by omega
        rw [h0]
        exact hg
      rw [pollGo_succ, if_neg (Nat.not_lt.mpr ha),
        ih fuel (a + 1) (e + 5) (by omega) hg'
          (fun j hj1 hj2 => hfirst j (by omega) (by omega))]
      have h1 : a + 1 + d + 1 = a + (d + 1) + 1 := by omega
      have h2 : e + 5 + 5 * d = e + 5 * (d + 1) := by omega
      rw [h1, h2]

/-- C1: armed with baseline `b`, if attempt `k` (1-based, `k ≤ 10`) is the
first whose fetch exceeds `b`, the polling loop resolves at attempt `k`,
clears `is_processing`, signals success, runs no further attempt, and has
slept 5 units for each of the `k - 1` failed attempts before it. -/
theorem poll_resolves_on_first_growth (b : Nat) (fetch : Nat → Nat) (k : Nat)
    (hk1 : 1 ≤ k) (hk10 : k ≤ 10) (hg : b < fetch (k - 1))
    (hfirst : ∀ j, j < k - 1 → fetch j ≤ b) :
    runPoll b fetch = ⟨.resolved k, false, false, true, k, 5 * (k - 1)⟩ := by
  unfold runPoll
  rw [pollGo_resolves b fetch (k - 1) 10 0 0 (by omega) (by simpa using hg)
    (fun j _ hj => hfirst j (by omega))]
  have h1 : 0 + (k - 1) + 1 = k := by omega
  have h2 : 0 + 5 * (k - 1) = 5 * (k - 1) := by omega
  rw [h1, h2]

/-- C1 witness: the spec's example — baseline 5, fetch results
`[5, 5, 5, 6]` — resolves on the 4th attempt with `is_processing` cleared,
success shown, and 15 units slept on the three failed attempts. -/
theorem poll_resolves_on_first_growth_witness :
    runPoll 5 exFetch = ⟨.resolved 4, false, false, true, 4, 15⟩ :=
  poll_resolves_on_first_growth 5 exFetch 4 (by decide) (by decide) (by decide)
    (by decide)

/-- C2: when no fetch of the run exceeds the baseline, the loop performs
exactly 10 attempts, sleeps 5 units after each, ends timed out with
`is_processing` cleared, and shows the non-fatal staleness warning instead
of the success banner. -/
theorem poll_times_out_after_ten (b : Nat) (fetch : Nat → Nat)
    (h : ∀ j, j < 10 → fetch j ≤ b) :
    runPoll b fetch = ⟨.timedOut, false, true, false, 10, 50⟩ := by
  unfold runPoll
  rw [pollGo_times_out b fetch 10 0 0 (fun j _ hj => h j (by omega))]

/-- C2 witness: the spec's example — baseline 5 and a constant fetch result
of 5 — ends in `TimedOut` with `is_processing` cleared and the warning
surfaced after 10 attempts and 50 units of delay. -/
theorem poll_times_out_after_ten_witness :
    runPoll 5 (fun _ => 5) = ⟨.timedOut, false, true, false, 10, 50⟩ :=
  poll_times_out_after_ten 5 (fun _ => 5) (by decide)

/-- C3: the polling loop does not invalidate the cache before its fetches.
With the baseline snapshot (count 5) cached at time 0 and the remote store
holding 6 records from time 1 on, all 10 attempts (times 1, 6, ..., 46,
each within the 60-unit TTL) observe the cached count 5 and the watcher
times out; had the first attempt bypassed the cache (cache state `none`),
it would have resolved immediately.  This contradicts the spec's
cache-invalidation invariant: the code is the slip. -/
theorem poll_cached_never_sees_growth :
    bugRemote 1 = 6 ∧
    runPollCached 5 bugRemote 1 (some (0, 5)) = ⟨.timedOut, false, true, false, 10, 50⟩ ∧
    runPollCached 5 bugRemote 1 none = ⟨.resolved 1, false, false, true, 1, 0⟩ := by
  decide

/-- C4 counterexample: the baseline is not the length of a fresh fetch at
acceptance time.  With a cache entry (count 5, stored at time 0) still
valid at acceptance time 30 while the store holds 7 records, the accepted
upload records baseline 5 — not the fresh count 7. -/
theorem upload_baseline_not_fresh :
    (handle_file_upload (.response 200) (fun t => if t < 30 then 5 else 7) 30
        ⟨false, none, none, "Chat", some (0, 5)⟩).row_count = some 5 ∧
    (fun t => if t < 30 then 5 else 7 : Nat → Nat) 30 = 7 ∧
    (handle_file_upload (.response 200) (fun t => if t < 30 then 5 else 7) 30
        ⟨false, none, none, "Chat", some (0, 5)⟩).row_count ≠
      some ((fun t => if t < 30 then 5 else 7 : Nat → Nat) 30) := by
  decide

/-- Helper: as long as every cache entry is a snapshot actually read from
the store at its stored (earlier) time, the count `load_data_from_bin`
serves is the store's count at some time at or before now. -/
theorem load_data_from_bin_at_or_before (remote : Nat → Nat) (t : Nat)
    (cache : Option (Nat × Nat))
    (hcache : ∀ ts n, cache = some (ts, n) → ts ≤ t ∧ n = remote ts) :
    ∃ tf, tf ≤ t ∧ (load_data_from_bin remote t cache).1 = remote tf := by
  match cache with
  | none => exact ⟨t, Nat.le_refl t, rfl⟩
  | some (ts, n) =>
    have ⟨hts, hn⟩ := hcache ts n rfl
    by_cases hv : t < ts + 60
    · refine ⟨ts, hts, ?_⟩
      simp only [load_data_from_bin, if_pos hv]
      exact hn
    · refine ⟨t, Nat.le_refl t, ?_⟩
      simp only [load_data_from_bin, if_neg hv]

/-- C4 (amended): when the extraction service accepts the upload, the
coordinator sets `is_processing` and records as baseline the length of the
possibly-cached fetch — fresh only when the cache is empty or expired —
which, provided the cache holds a snapshot actually read from the store at
some earlier time, is the store's count at some time at or before
acceptance. -/
theorem upload_accept_arms (remote : Nat → Nat) (t : Nat) (s : SessionState)
    (hcache : ∀ ts n, s.cache = some (ts, n) → ts ≤ t ∧ n = remote ts) :
    (handle_file_upload (.response 200) remote t s).is_processing = true ∧
    (handle_file_upload (.response 200) remote t s).upload_success = some true ∧
    ∃ tf, tf ≤ t ∧
      (handle_file_upload (.response 200) remote t s).row_count = some (remote tf) := by
  obtain ⟨tf, htf, hfst⟩ := load_data_from_bin_at_or_before remote t s.cache hcache
  refine ⟨rfl, rfl, tf, htf, ?_⟩
  show some (load_data_from_bin remote t s.cache).1 = some (remote tf)
  rw [hfst]

/-- C4 witness: with an empty cache, an accepted upload at time 0 against a
constant store of 5 records arms the watcher with a baseline read from the
store at or before acceptance time. -/
theorem upload_accept_arms_witness :
    (handle_file_upload (.response 200) (fun _ => 5) 0
        ⟨false, none, none, "Chat", none⟩).is_processing = true ∧
    (handle_file_upload (.response 200) (fun _ => 5) 0
        ⟨false, none, none, "Chat", none⟩).upload_success = some true ∧
    ∃ tf, tf ≤ 0 ∧
      (handle_file_upload (.response 200) (fun _ => 5) 0
          ⟨false, none, none, "Chat", none⟩).row_count = some ((fun _ => 5 : Nat → Nat) tf) :=
  upload_accept_arms (fun _ => 5) 0 ⟨false, none, none, "Chat", none⟩
    (fun _ _ h => nomatch h)

/-- C5: when the extraction service rejects the upload (any non-2xx status,
HTTP 500 included) or the request fails in transport, `send_file_to_n8n`
returns false and `handle_file_upload` only records the failure banner:
`is_processing`, the baseline `row_count`, the page and the cache are all
unchanged, so the polling watcher is never armed. -/
theorem upload_reject_no_arm (outcome : UploadOutcome) (remote : Nat → Nat)
    (t : Nat) (s : SessionState)
    (h : outcome = .transportError ∨
      ∃ status, outcome = .response status ∧ ¬(200 ≤ status ∧ status < 300)) :
    send_file_to_n8n outcome = false ∧
    handle_file_upload outcome remote t s = { s with upload_success := some false } := by
  have hsend : send_file_to_n8n outcome = false := by
    rcases h with h | ⟨status, hs, hns⟩
    · rw [h]; rfl
    · rw [hs]
      simp only [send_file_to_n8n, beq_eq_false_iff_ne, ne_eq]
      omega
  refine ⟨hsend, ?_⟩
  unfold handle_file_upload
  rw [hsend]
  simp

/-- C5 witness: an HTTP 500 response leaves the session state unchanged but
for the failure banner. -/
theorem upload_reject_no_arm_witness :
    send_file_to_n8n (.response 500) = false ∧
    handle_file_upload (.response 500) (fun _ => 0) 0 ⟨false, none, none, "Chat", none⟩ =
      { is_processing := false, upload_success := some false, row_count := none,
        page := "Chat", cache := none } :=
  upload_reject_no_arm (.response 500) (fun _ => 0) 0 ⟨false, none, none, "Chat", none⟩
    (Or.inr ⟨500, rfl, by omega⟩)

/-- C6 counterexample: HTTP 201 is a 2xx success status, yet
`send_file_to_n8n` returns false for it — the source compares the status
code to 200 exactly. -/
theorem submit_rejects_201 :
    send_file_to_n8n (.response 201) = false ∧ 200 ≤ 201 ∧ 201 < 300 := by
  decide

/-- C6 (amended): `send_file_to_n8n` returns true exactly when the service
responded with status exactly 200; every other status — other 2xx success
codes included — and every transport failure yields false. -/
theorem submit_true_iff_200 (outcome : UploadOutcome) :
    send_file_to_n8n outcome = true ↔ outcome = .response 200 := by
  match outcome with
  | .response status =>
    simp only [send_file_to_n8n, beq_iff_eq, UploadOutcome.response.injEq]
  | .transportError =>
    simp only [send_file_to_n8n, Bool.false_eq_true, false_iff]
    intro h
    exact nomatch h

/-- A chat message as kept in `st.session_state.messages`
(src/app.py lines 106-107, 138, 144): a role and a text content. -/
structure ChatMessage where
  role : String
  content : String
deriving DecidableEq

/-- The JSON value `response.json()` yields in
`get_chat_response_from_n8n`, modelled to the depth the function inspects
(src/app.py lines 66-76): either an array of string-keyed objects with
string values, or any non-array value. -/
inductive ChatJson
  | list (items : List (List (String × String)))
  | nonList
deriving DecidableEq

/-- How the chat webhook round trip ends: a transport failure or non-2xx
status (both raise, src/app.py lines 62-63, caught on line 78) carrying the
exception's text, or a parsed JSON body. -/
inductive ChatBackendResponse
  | transportFailure (err : String)
  | json (v : ChatJson)
deriving DecidableEq

/-- Embeds `get_chat_response_from_n8n` (src/app.py lines 53-80).  An empty
history returns early; otherwise the request is sent (the payload being the
last message's content) and the reply is read: a non-empty JSON array's
first object is looked up at key `output` (Python `dict.get` with a default
for an absent key), any other shape is the fixed unexpected-format message,
and a raised exception becomes the connection message with the error's text
appended. -/
def get_chat_response_from_n8n (history : List ChatMessage)
    (backend : ChatBackendResponse) : String :=
  match history with
  | [] => "No message to send."
  | _ :: _ =>
    match backend with
    | .transportFailure e => "Sorry, I couldn't connect to the bot backend. Error: " ++ e
    | .json (.list (first :: _)) =>
      match first.lookup "output" with
      | some out => out
      | none => "Sorry, I received a response but couldn't find the message."
    | .json (.list []) => "Sorry, the backend returned an unexpected data format."
    | .json .nonList => "Sorry, the backend returned an unexpected data format."

/-- Embeds the chat page's input handler (src/app.py lines 137-144): the
user's text is appended to the history, the backend is asked, and whatever
text comes back is appended as the assistant's turn. -/
def chat_input_step (messages : List ChatMessage) (user_input : String)
    (backend : ChatBackendResponse) : List ChatMessage :=
  let afterUser := messages ++ [⟨"user", user_input⟩]
  afterUser ++ [⟨"assistant", get_chat_response_from_n8n afterUser backend⟩]

/-- The fixed fallback strings the chat path can substitute for a reply
(src/app.py lines 57, 73, 76). -/
def fallbackStrings : List String :=
  ["Sorry, the backend returned an unexpected data format.",
   "Sorry, I received a response but couldn't find the message.",
   "No message to send."]

/-- C8 counterexample: a backend reply that is present but empty — the
response `[{"output": ""}]` — is returned verbatim, not replaced by a
fallback: the result is the empty string, which is none of the fixed
fallbacks and no connection-error message either (those start with a
49-byte prefix); it is still appended to the history. -/
theorem chat_empty_reply_verbatim :
    get_chat_response_from_n8n [⟨"user", "hi"⟩] (.json (.list [[("output", "")]])) = "" ∧
    fallbackStrings.contains "" = false ∧
    List.isPrefixOf "Sorry, I couldn't connect to the bot backend. Error: ".data "".data
      = false ∧
    chat_input_step [] "hi" (.json (.list [[("output", "")]])) =
      [⟨"user", "hi"⟩, ⟨"assistant", ""⟩] := by
  refine ⟨rfl, ?_, rfl, rfl⟩
  decide

/-- C8 (amended): for every non-empty history, a transport failure yields
the connection fallback with the error detail appended, a malformed shape
(the empty array or any non-array body) yields the fixed unexpected-format
fallback, an absent `output` key yields the fixed missing-message fallback
(an empty-string reply, however, is returned verbatim), and whatever text
results is appended to the session history unconditionally. -/
theorem chat_fallbacks_appended (messages : List ChatMessage) (input : String)
    (backend : ChatBackendResponse) :
    (∀ e, backend = .transportFailure e →
      get_chat_response_from_n8n (messages ++ [⟨"user", input⟩]) backend =
        "Sorry, I couldn't connect to the bot backend. Error: " ++ e) ∧
    ((backend = .json (.list []) ∨ backend = .json .nonList) →
      get_chat_response_from_n8n (messages ++ [⟨"user", input⟩]) backend =
        "Sorry, the backend returned an unexpected data format.") ∧
    (∀ first rest, backend = .json (.list (first :: rest)) →
      first.lookup "output" = none →
      get_chat_response_from_n8n (messages ++ [⟨"user", input⟩]) backend =
        "Sorry, I received a response but couldn't find the message.") ∧
    chat_input_step messages input backend =
      messages ++ [⟨"user", input⟩,
        ⟨"assistant", get_chat_response_from_n8n (messages ++ [⟨"user", input⟩]) backend⟩] := by
  obtain ⟨m, ms, hms⟩ : ∃ m ms, messages ++ [(⟨"user", input⟩ : ChatMessage)] = m :: ms := by
    match messages with
    | [] => exact ⟨⟨"user", input⟩, [], rfl⟩
    | a :: l => exact ⟨a, l ++ [⟨"user", input⟩], List.cons_append a l _⟩
  refine ⟨?_, ?_, ?_, ?_⟩
  · intro e he
    rw [he, hms]
    rfl
  · intro he
    rcases he with he | he <;> rw [he, hms] <;> rfl
  · intro first rest he hout
    rw [he, hms]
    simp only [get_chat_response_from_n8n, hout]
  · show (messages ++ [⟨"user", input⟩]) ++ [⟨"assistant", _⟩] = _
    rw [List.append_assoc]
    rfl

/-- C8 witness: the spec's example — the webhook responds with the empty
array — returns the fixed unexpected-format fallback and still appends it
to the history. -/
theorem chat_fallbacks_appended_witness :
    get_chat_response_from_n8n [⟨"user", "hi"⟩] (.json (.list [])) =
      "Sorry, the backend returned an unexpected data format." ∧
    chat_input_step [] "hi" (.json (.list [])) =
      [⟨"user", "hi"⟩,
       ⟨"assistant", "Sorry, the backend returned an unexpected data format."⟩] := by
  have h := chat_fallbacks_appended [] "hi" (.json (.list []))
  have hfb := h.2.1 (Or.inl rfl)
  exact ⟨hfb, by rw [h.2.2.2, hfb]; rfl⟩

/-- C10: called with an empty history, the chat helper returns the fixed
string "No message to send." whatever the backend would have answered — it
returns before the webhook request is built, so no backend interaction can
influence the result and no exception can arise. -/
theorem chat_empty_history (backend : ChatBackendResponse) :
    get_chat_response_from_n8n [] backend = "No message to send." := rfl

/-- One row of the fetched transaction set, with the fields the dashboard
aggregates read (src/app.py lines 190-192): `Amount` is coerced to a
number — modelled as a rational, the signed decimal of the data model —
and `Category` is a free-text label.  The `Date` field is kept as the raw
text; no claim below depends on its parsing. -/
structure Transaction where
  date : String
  amount : ℚ
  category : String
deriving DecidableEq

/-- Embeds the Total Spend metric `df['Amount'].sum()`
(src/app.py line 198). -/
def total_spend (txs : List Transaction) : ℚ :=
  (txs.map Transaction.amount).sum

/-- Embeds one entry of `df.groupby('Category')['Amount'].sum()`
(src/app.py line 233): the total of the amounts of the rows carrying
category `c`. -/
def category_spending (txs : List Transaction) (c : String) : ℚ :=
  ((txs.filter (fun tr => tr.category == c)).map Transaction.amount).sum

/-- The distinct category labels of a transaction set — the index of the
groupby result. -/
def categories (txs : List Transaction) : Finset String :=
  (txs.map Transaction.category).toFinset

/-- Embeds the month-over-month percentage change (src/app.py
lines 395-398): the division rule fires only for a strictly positive
prior-month total; otherwise the result is 100 for a positive
current-month total and 0 else. -/
def pct_change (total_month1 total_month2 : ℚ) : ℚ :=
  if total_month1 > 0 then (total_month2 - total_month1) / total_month1 * 100
  else if total_month2 > 0 then 100 else 0

/-- Helper for the grouping argument: over any label set `S` covering every
row's category, the per-category partial sums add up to the whole sum. -/
theorem sum_category_spending (S : Finset String) :
    ∀ txs : List Transaction, (∀ tr ∈ txs, tr.category ∈ S) →
      ∑ c ∈ S, category_spending txs c = total_spend txs := by
  intro txs
  induction txs with
  | nil =>
    intro _
    simp [category_spending, total_spend]
  | cons tr txs ih =>
    intro h
    have htr : tr.category ∈ S := h tr (List.mem_cons_self tr txs)
    have hrest : ∀ x ∈ txs, x.category ∈ S := fun x hx => h x (List.mem_cons_of_mem tr hx)
    have hsplit : ∀ c, category_spending (tr :: txs) c =
        (if tr.category = c then tr.amount else 0) + category_spending txs c := by
      intro c
      by_cases hc : tr.category = c
      · subst hc
        simp [category_spending, List.filter_cons]
      · simp [category_spending, List.filter_cons, hc]
    calc ∑ c ∈ S, category_spending (tr :: txs) c
        = ∑ c ∈ S, ((if tr.category = c then tr.amount else 0) + category_spending txs c) :=
          Finset.sum_congr rfl (fun c _ => hsplit c)
      _ = (∑ c ∈ S, if tr.category = c then tr.amount else 0) +
            ∑ c ∈ S, category_spending txs c := Finset.sum_add_distrib
      _ = tr.amount + total_spend txs := by
          rw [Finset.sum_ite_eq S tr.category (fun _ => tr.amount), if_pos htr, ih hrest]
      _ = total_spend (tr :: txs) := by simp [total_spend]

/-- C9: for every transaction set, the per-category `Amount` totals of the
groupby sum to the same value as one `Amount` sum over the whole set —
grouping consistency of the dashboard aggregates. -/
theorem grouping_consistency (txs : List Transaction) :
    ∑ c ∈ categories txs, category_spending txs c = total_spend txs :=
  sum_category_spending (categories txs) txs
    (fun _ htr => List.mem_toFinset.mpr (List.mem_map_of_mem Transaction.category htr))

/-- C7 counterexample: for the negative prior total -100 and current
total 50, the claim's division rule demands
`(50 - (-100)) / (-100) * 100 = -150`, but the code's guard is
`total_month1 > 0`, so it answers 100 instead. -/
theorem pct_change_negative_prior :
    pct_change (-100) 50 = 100 ∧
    (50 - (-100)) / (-100) * 100 = (-150 : ℚ) ∧
    pct_change (-100) 50 ≠ (50 - (-100)) / (-100) * 100 := by
  refine ⟨?_, ?_, ?_⟩ <;> norm_num [pct_change]

/-- C7 (amended): the displayed change percentage follows the division rule
`(current - prior) / prior * 100` exactly when the prior total is strictly
positive; for every prior total at or below zero — zero and negative priors
alike — it is 100 when the current total is positive and 0 otherwise. -/
theorem pct_change_cases (prior current : ℚ) :
    (0 < prior → pct_change prior current = (current - prior) / prior * 100) ∧
    (prior ≤ 0 → 0 < current → pct_change prior current = 100) ∧
    (prior ≤ 0 → current ≤ 0 → pct_change prior current = 0) := by
  refine ⟨fun h => ?_, fun h hc => ?_, fun h hc => ?_⟩
  · rw [pct_change, if_pos h]
  · rw [pct_change, if_neg (not_lt.mpr h), if_pos hc]
  · rw [pct_change, if_neg (not_lt.mpr h), if_neg (not_lt.mpr hc)]

/-- C7 witness: the spec's worked examples — prior 100 and current 80 give
-20%, prior 0 and current 50 give +100%, and two zero totals give 0%. -/
theorem pct_change_cases_witness :
    pct_change 100 80 = (80 - 100) / 100 * 100 ∧
    (80 - 100 : ℚ) / 100 * 100 = -20 ∧
    pct_change 0 50 = 100 ∧
    pct_change 0 0 = 0 :=
  ⟨(pct_change_cases 100 80).1 (by norm_num), by norm_num,
   (pct_change_cases 0 50).2.1 le_rfl (by norm_num),
   (pct_change_cases 0 0).2.2 le_rfl le_rfl⟩
